import Mathlib

/-!
# Verification of the reaper-rs C++ glue layer

Shallow embedding of the C-linkage shim layer (`src/main/low/src/*.cpp` and the
historical snapshot `src/main/src/low_level/*.cpp`) that adapts REAPER's C++
virtual interfaces to a C ABI.

Modelling conventions:
* A cross-boundary call (a C++ virtual method body invoking an `extern "C"`
  entry point implemented on the Rust side, or vice versa) is one observable
  event `Effect.call` recording the entry-point name, the callback target
  (Foreign Handle) and the marshalled arguments.
* The Rust side is an opaque `Oracle` mapping each such call to its result.
* Machine values crossing the boundary are modelled by `BVal`: integers and
  booleans by value, `double`s as opaque 64-bit patterns, pointers as opaque
  addresses, text that crosses by content as `String`.
* Heap operations (`new` / `delete` in the creation and destruction entry
  points) are the events `Effect.alloc` / `Effect.free`.
-/

/-- A value crossing the language boundary: primitives by value, `double`s as
opaque bit patterns, pointers as opaque addresses, text by content. -/
inductive BVal where
  | vint (i : Int)
  | vbool (b : Bool)
  | vdbl (bits : Nat)
  | vptr (p : Nat)
  | vstr (s : String)
  | vunit
deriving DecidableEq, Repr

/-- One cross-boundary call: entry-point name, callback target (Foreign
Handle), marshalled arguments in declared order. -/
structure FCall where
  entry : String
  target : Nat
  args : List BVal
deriving DecidableEq, Repr

/-- Observable effects of the shim code. -/
inductive Effect where
  | call (c : FCall)
  | alloc (addr : Nat)
  | free (addr : Nat)
  | foreignRelease (h : Nat)
  | lockAcquire
  | blockingIo
deriving DecidableEq, Repr

/-- The opaque implementation side: maps every cross-boundary call to the
value it returns. -/
abbrev Oracle := FCall → BVal

/-- A trivial implementation side that answers every call with the integer 0. -/
def defaultOracle : Oracle := fun _ => BVal.vint 0

/-- Invoking a value-returning `extern "C"` entry point: one call event, and
the implementation side's answer to exactly that call. -/
def boundaryCall (o : Oracle) (entry : String) (target : Nat) (args : List BVal) :
    List Effect × BVal :=
  ([Effect.call ⟨entry, target, args⟩], o ⟨entry, target, args⟩)

/-- Invoking a `void` `extern "C"` entry point: one call event, no result. -/
def boundaryCallVoid (o : Oracle) (entry : String) (target : Nat) (args : List BVal) :
    List Effect × BVal :=
  ([Effect.call ⟨entry, target, args⟩], BVal.vunit)

namespace reaper_control_surface

/-- Method calls of the host interface shape `IReaperControlSurface`: one
constructor per virtual method of `CppToRustControlSurface`
(`src/main/low/src/control_surface.cpp`, lines 15-77). -/
inductive CSM where
  | GetTypeString
  | GetDescString
  | GetConfigString
  | CloseNoReset
  | Run
  | SetTrackListChange
  | SetSurfaceVolume (trackid : Nat) (volume : Nat)
  | SetSurfacePan (trackid : Nat) (pan : Nat)
  | SetSurfaceMute (trackid : Nat) (mute : Bool)
  | SetSurfaceSelected (trackid : Nat) (selected : Bool)
  | SetSurfaceSolo (trackid : Nat) (solo : Bool)
  | SetSurfaceRecArm (trackid : Nat) (recarm : Bool)
  | SetPlayState (play pause rec_ : Bool)
  | SetRepeatState (rep : Bool)
  | SetTrackTitle (trackid : Nat) (title : String)
  | GetTouchState (trackid : Nat) (isPan : Int)
  | SetAutoMode (mode : Int)
  | ResetCachedVolPanStates
  | OnTrackSelection (trackid : Nat)
  | IsKeyDown (key : Int)
  | Extended (call : Int) (parm1 parm2 parm3 : Nat)
deriving DecidableEq, Repr

/-- The Outbound Adapter class `CppToRustControlSurface`: its only state is
the `callback_target_` pointer supplied at construction. -/
structure CppToRustControlSurface where
  callback_target_ : Nat
deriving DecidableEq, Repr

/-- Embedding of the virtual method bodies of `CppToRustControlSurface`
(`control_surface.cpp` lines 15-77).  Each body is a single call to the
matching `cpp_to_rust_IReaperControlSurface_*` entry point, passing
`this->callback_target_` and the method arguments; the method returns that
call's result (or nothing for `void` methods) and leaves `this` untouched. -/
def CppToRustControlSurface.invoke (o : Oracle) (self : CppToRustControlSurface) :
    CSM → CppToRustControlSurface × List Effect × BVal
  | .GetTypeString =>
      (self, boundaryCall o "cpp_to_rust_IReaperControlSurface_GetTypeString"
        self.callback_target_ [])
  | .GetDescString =>
      (self, boundaryCall o "cpp_to_rust_IReaperControlSurface_GetDescString"
        self.callback_target_ [])
  | .GetConfigString =>
      (self, boundaryCall o "cpp_to_rust_IReaperControlSurface_GetConfigString"
        self.callback_target_ [])
  | .CloseNoReset =>
      (self, boundaryCallVoid o "cpp_to_rust_IReaperControlSurface_CloseNoReset"
        self.callback_target_ [])
  | .Run =>
      (self, boundaryCallVoid o "cpp_to_rust_IReaperControlSurface_Run"
        self.callback_target_ [])
  | .SetTrackListChange =>
      (self, boundaryCallVoid o "cpp_to_rust_IReaperControlSurface_SetTrackListChange"
        self.callback_target_ [])
  | .SetSurfaceVolume trackid volume =>
      (self, boundaryCallVoid o "cpp_to_rust_IReaperControlSurface_SetSurfaceVolume"
        self.callback_target_ [.vptr trackid, .vdbl volume])
  | .SetSurfacePan trackid pan =>
      (self, boundaryCallVoid o "cpp_to_rust_IReaperControlSurface_SetSurfacePan"
        self.callback_target_ [.vptr trackid, .vdbl pan])
  | .SetSurfaceMute trackid mute =>
      (self, boundaryCallVoid o "cpp_to_rust_IReaperControlSurface_SetSurfaceMute"
        self.callback_target_ [.vptr trackid, .vbool mute])
  | .SetSurfaceSelected trackid selected =>
      (self, boundaryCallVoid o "cpp_to_rust_IReaperControlSurface_SetSurfaceSelected"
        self.callback_target_ [.vptr trackid, .vbool selected])
  | .SetSurfaceSolo trackid solo =>
      (self, boundaryCallVoid o "cpp_to_rust_IReaperControlSurface_SetSurfaceSolo"
        self.callback_target_ [.vptr trackid, .vbool solo])
  | .SetSurfaceRecArm trackid recarm =>
      (self, boundaryCallVoid o "cpp_to_rust_IReaperControlSurface_SetSurfaceRecArm"
        self.callback_target_ [.vptr trackid, .vbool recarm])
  | .SetPlayState play pause rec_ =>
      (self, boundaryCallVoid o "cpp_to_rust_IReaperControlSurface_SetPlayState"
        self.callback_target_ [.vbool play, .vbool pause, .vbool rec_])
  | .SetRepeatState rep =>
      (self, boundaryCallVoid o "cpp_to_rust_IReaperControlSurface_SetRepeatState"
        self.callback_target_ [.vbool rep])
  | .SetTrackTitle trackid title =>
      (self, boundaryCallVoid o "cpp_to_rust_IReaperControlSurface_SetTrackTitle"
        self.callback_target_ [.vptr trackid, .vstr title])
  | .GetTouchState trackid isPan =>
      (self, boundaryCall o "cpp_to_rust_IReaperControlSurface_GetTouchState"
        self.callback_target_ [.vptr trackid, .vint isPan])
  | .SetAutoMode mode =>
      (self, boundaryCallVoid o "cpp_to_rust_IReaperControlSurface_SetAutoMode"
        self.callback_target_ [.vint mode])
  | .ResetCachedVolPanStates =>
      (self, boundaryCallVoid o "cpp_to_rust_IReaperControlSurface_ResetCachedVolPanStates"
        self.callback_target_ [])
  | .OnTrackSelection trackid =>
      (self, boundaryCallVoid o "cpp_to_rust_IReaperControlSurface_OnTrackSelection"
        self.callback_target_ [.vptr trackid])
  | .IsKeyDown key =>
      (self, boundaryCall o "cpp_to_rust_IReaperControlSurface_IsKeyDown"
        self.callback_target_ [.vint key])
  | .Extended call parm1 parm2 parm3 =>
      (self, boundaryCall o "cpp_to_rust_IReaperControlSurface_Extended"
        self.callback_target_ [.vint call, .vptr parm1, .vptr parm2, .vptr parm3])

/-- Interface Descriptor, spec side: the name of the cross-boundary entry
point the spec prescribes for each method
(`cpp_to_rust_IReaperControlSurface_<Method>`). -/
def CSM.entryName : CSM → String
  | .GetTypeString => "cpp_to_rust_IReaperControlSurface_GetTypeString"
  | .GetDescString => "cpp_to_rust_IReaperControlSurface_GetDescString"
  | .GetConfigString => "cpp_to_rust_IReaperControlSurface_GetConfigString"
  | .CloseNoReset => "cpp_to_rust_IReaperControlSurface_CloseNoReset"
  | .Run => "cpp_to_rust_IReaperControlSurface_Run"
  | .SetTrackListChange => "cpp_to_rust_IReaperControlSurface_SetTrackListChange"
  | .SetSurfaceVolume _ _ => "cpp_to_rust_IReaperControlSurface_SetSurfaceVolume"
  | .SetSurfacePan _ _ => "cpp_to_rust_IReaperControlSurface_SetSurfacePan"
  | .SetSurfaceMute _ _ => "cpp_to_rust_IReaperControlSurface_SetSurfaceMute"
  | .SetSurfaceSelected _ _ => "cpp_to_rust_IReaperControlSurface_SetSurfaceSelected"
  | .SetSurfaceSolo _ _ => "cpp_to_rust_IReaperControlSurface_SetSurfaceSolo"
  | .SetSurfaceRecArm _ _ => "cpp_to_rust_IReaperControlSurface_SetSurfaceRecArm"
  | .SetPlayState _ _ _ => "cpp_to_rust_IReaperControlSurface_SetPlayState"
  | .SetRepeatState _ => "cpp_to_rust_IReaperControlSurface_SetRepeatState"
  | .SetTrackTitle _ _ => "cpp_to_rust_IReaperControlSurface_SetTrackTitle"
  | .GetTouchState _ _ => "cpp_to_rust_IReaperControlSurface_GetTouchState"
  | .SetAutoMode _ => "cpp_to_rust_IReaperControlSurface_SetAutoMode"
  | .ResetCachedVolPanStates => "cpp_to_rust_IReaperControlSurface_ResetCachedVolPanStates"
  | .OnTrackSelection _ => "cpp_to_rust_IReaperControlSurface_OnTrackSelection"
  | .IsKeyDown _ => "cpp_to_rust_IReaperControlSurface_IsKeyDown"
  | .Extended _ _ _ _ => "cpp_to_rust_IReaperControlSurface_Extended"

/-- Interface Descriptor, spec side: the marshalled argument list the spec
prescribes (arguments in declared order, primitives by value, text by
content, object pointers unchanged). -/
def CSM.boundaryArgs : CSM → List BVal
  | .GetTypeString => []
  | .GetDescString => []
  | .GetConfigString => []
  | .CloseNoReset => []
  | .Run => []
  | .SetTrackListChange => []
  | .SetSurfaceVolume trackid volume => [.vptr trackid, .vdbl volume]
  | .SetSurfacePan trackid pan => [.vptr trackid, .vdbl pan]
  | .SetSurfaceMute trackid mute => [.vptr trackid, .vbool mute]
  | .SetSurfaceSelected trackid selected => [.vptr trackid, .vbool selected]
  | .SetSurfaceSolo trackid solo => [.vptr trackid, .vbool solo]
  | .SetSurfaceRecArm trackid recarm => [.vptr trackid, .vbool recarm]
  | .SetPlayState play pause rec_ => [.vbool play, .vbool pause, .vbool rec_]
  | .SetRepeatState rep => [.vbool rep]
  | .SetTrackTitle trackid title => [.vptr trackid, .vstr title]
  | .GetTouchState trackid isPan => [.vptr trackid, .vint isPan]
  | .SetAutoMode mode => [.vint mode]
  | .ResetCachedVolPanStates => []
  | .OnTrackSelection trackid => [.vptr trackid]
  | .IsKeyDown key => [.vint key]
  | .Extended call parm1 parm2 parm3 => [.vint call, .vptr parm1, .vptr parm2, .vptr parm3]

/-- Interface Descriptor, spec side: whether the method returns a value. -/
def CSM.hasResult : CSM → Bool
  | .GetTypeString => true
  | .GetDescString => true
  | .GetConfigString => true
  | .GetTouchState _ _ => true
  | .IsKeyDown _ => true
  | .Extended _ _ _ _ => true
  | _ => false


end reaper_control_surface

namespace reaper_pcm_source

/-- Method calls of the host interface shape `PCM_source`: one constructor per
virtual method of `CppToRustPcmSource` (`src/main/low/src/pcm_source.cpp`,
lines 89-160). -/
inductive PSM where
  | Duplicate
  | IsAvailable
  | GetType
  | SetFileName (newfn : String)
  | GetNumChannels
  | GetSampleRate
  | GetLength
  | PropertiesWindow (hwndParent : Nat)
  | GetSamples (block : Nat)
  | GetPeakInfo (block : Nat)
  | SaveState (ctx : Nat)
  | LoadState (firstline : String) (ctx : Nat)
  | Peaks_Clear (deleteFile : Bool)
  | PeaksBuild_Begin
  | PeaksBuild_Run
  | PeaksBuild_Finish
  | SetAvailable (avail : Bool)
  | GetFileName
  | GetSource
  | SetSource (src : Nat)
  | GetLengthBeats
  | GetBitsPerSample
  | GetPreferredPosition
  | Extended (call : Int) (parm1 parm2 parm3 : Nat)
deriving DecidableEq, Repr

/-- The Outbound Adapter class `CppToRustPcmSource`: its only state is the
`callback_target_` pointer supplied at construction. -/
structure CppToRustPcmSource where
  callback_target_ : Nat
deriving DecidableEq, Repr

/-- Embedding of the virtual method bodies of `CppToRustPcmSource`
(`pcm_source.cpp` lines 89-160).  Each body is a single call to the matching
`cpp_to_rust_PCM_source_*` entry point. -/
def CppToRustPcmSource.invoke (o : Oracle) (self : CppToRustPcmSource) :
    PSM → CppToRustPcmSource × List Effect × BVal
  | .Duplicate =>
      (self, boundaryCall o "cpp_to_rust_PCM_source_Duplicate" self.callback_target_ [])
  | .IsAvailable =>
      (self, boundaryCall o "cpp_to_rust_PCM_source_IsAvailable" self.callback_target_ [])
  | .GetType =>
      (self, boundaryCall o "cpp_to_rust_PCM_source_GetType" self.callback_target_ [])
  | .SetFileName newfn =>
      (self, boundaryCall o "cpp_to_rust_PCM_source_SetFileName" self.callback_target_
        [.vstr newfn])
  | .GetNumChannels =>
      (self, boundaryCall o "cpp_to_rust_PCM_source_GetNumChannels" self.callback_target_ [])
  | .GetSampleRate =>
      (self, boundaryCall o "cpp_to_rust_PCM_source_GetSampleRate" self.callback_target_ [])
  | .GetLength =>
      (self, boundaryCall o "cpp_to_rust_PCM_source_GetLength" self.callback_target_ [])
  | .PropertiesWindow hwndParent =>
      (self, boundaryCall o "cpp_to_rust_PCM_source_PropertiesWindow" self.callback_target_
        [.vptr hwndParent])
  | .GetSamples block =>
      (self, boundaryCallVoid o "cpp_to_rust_PCM_source_GetSamples" self.callback_target_
        [.vptr block])
  | .GetPeakInfo block =>
      (self, boundaryCallVoid o "cpp_to_rust_PCM_source_GetPeakInfo" self.callback_target_
        [.vptr block])
  | .SaveState ctx =>
      (self, boundaryCallVoid o "cpp_to_rust_PCM_source_SaveState" self.callback_target_
        [.vptr ctx])
  | .LoadState firstline ctx =>
      (self, boundaryCall o "cpp_to_rust_PCM_source_LoadState" self.callback_target_
        [.vstr firstline, .vptr ctx])
  | .Peaks_Clear deleteFile =>
      (self, boundaryCallVoid o "cpp_to_rust_PCM_source_Peaks_Clear" self.callback_target_
        [.vbool deleteFile])
  | .PeaksBuild_Begin =>
      (self, boundaryCall o "cpp_to_rust_PCM_source_PeaksBuild_Begin" self.callback_target_ [])
  | .PeaksBuild_Run =>
      (self, boundaryCall o "cpp_to_rust_PCM_source_PeaksBuild_Run" self.callback_target_ [])
  | .PeaksBuild_Finish =>
      (self, boundaryCallVoid o "cpp_to_rust_PCM_source_PeaksBuild_Finish"
        self.callback_target_ [])
  | .SetAvailable avail =>
      (self, boundaryCallVoid o "cpp_to_rust_PCM_source_SetAvailable" self.callback_target_
        [.vbool avail])
  | .GetFileName =>
      (self, boundaryCall o "cpp_to_rust_PCM_source_GetFileName" self.callback_target_ [])
  | .GetSource =>
      (self, boundaryCall o "cpp_to_rust_PCM_source_GetSource" self.callback_target_ [])
  | .SetSource src =>
      (self, boundaryCallVoid o "cpp_to_rust_PCM_source_SetSource" self.callback_target_
        [.vptr src])
  | .GetLengthBeats =>
      (self, boundaryCall o "cpp_to_rust_PCM_source_GetLengthBeats" self.callback_target_ [])
  | .GetBitsPerSample =>
      (self, boundaryCall o "cpp_to_rust_PCM_source_GetBitsPerSample" self.callback_target_ [])
  | .GetPreferredPosition =>
      (self, boundaryCall o "cpp_to_rust_PCM_source_GetPreferredPosition"
        self.callback_target_ [])
  | .Extended call parm1 parm2 parm3 =>
      (self, boundaryCall o "cpp_to_rust_PCM_source_Extended" self.callback_target_
        [.vint call, .vptr parm1, .vptr parm2, .vptr parm3])

/-- Interface Descriptor, spec side: entry-point names
(`cpp_to_rust_PCM_source_<Method>`). -/
def PSM.entryName : PSM → String
  | .Duplicate => "cpp_to_rust_PCM_source_Duplicate"
  | .IsAvailable => "cpp_to_rust_PCM_source_IsAvailable"
  | .GetType => "cpp_to_rust_PCM_source_GetType"
  | .SetFileName _ => "cpp_to_rust_PCM_source_SetFileName"
  | .GetNumChannels => "cpp_to_rust_PCM_source_GetNumChannels"
  | .GetSampleRate => "cpp_to_rust_PCM_source_GetSampleRate"
  | .GetLength => "cpp_to_rust_PCM_source_GetLength"
  | .PropertiesWindow _ => "cpp_to_rust_PCM_source_PropertiesWindow"
  | .GetSamples _ => "cpp_to_rust_PCM_source_GetSamples"
  | .GetPeakInfo _ => "cpp_to_rust_PCM_source_GetPeakInfo"
  | .SaveState _ => "cpp_to_rust_PCM_source_SaveState"
  | .LoadState _ _ => "cpp_to_rust_PCM_source_LoadState"
  | .Peaks_Clear _ => "cpp_to_rust_PCM_source_Peaks_Clear"
  | .PeaksBuild_Begin => "cpp_to_rust_PCM_source_PeaksBuild_Begin"
  | .PeaksBuild_Run => "cpp_to_rust_PCM_source_PeaksBuild_Run"
  | .PeaksBuild_Finish => "cpp_to_rust_PCM_source_PeaksBuild_Finish"
  | .SetAvailable _ => "cpp_to_rust_PCM_source_SetAvailable"
  | .GetFileName => "cpp_to_rust_PCM_source_GetFileName"
  | .GetSource => "cpp_to_rust_PCM_source_GetSource"
  | .SetSource _ => "cpp_to_rust_PCM_source_SetSource"
  | .GetLengthBeats => "cpp_to_rust_PCM_source_GetLengthBeats"
  | .GetBitsPerSample => "cpp_to_rust_PCM_source_GetBitsPerSample"
  | .GetPreferredPosition => "cpp_to_rust_PCM_source_GetPreferredPosition"
  | .Extended _ _ _ _ => "cpp_to_rust_PCM_source_Extended"

/-- Interface Descriptor, spec side: marshalled arguments in declared order. -/
def PSM.boundaryArgs : PSM → List BVal
  | .Duplicate => []
  | .IsAvailable => []
  | .GetType => []
  | .SetFileName newfn => [.vstr newfn]
  | .GetNumChannels => []
  | .GetSampleRate => []
  | .GetLength => []
  | .PropertiesWindow hwndParent => [.vptr hwndParent]
  | .GetSamples block => [.vptr block]
  | .GetPeakInfo block => [.vptr block]
  | .SaveState ctx => [.vptr ctx]
  | .LoadState firstline ctx => [.vstr firstline, .vptr ctx]
  | .Peaks_Clear deleteFile => [.vbool deleteFile]
  | .PeaksBuild_Begin => []
  | .PeaksBuild_Run => []
  | .PeaksBuild_Finish => []
  | .SetAvailable avail => [.vbool avail]
  | .GetFileName => []
  | .GetSource => []
  | .SetSource src => [.vptr src]
  | .GetLengthBeats => []
  | .GetBitsPerSample => []
  | .GetPreferredPosition => []
  | .Extended call parm1 parm2 parm3 => [.vint call, .vptr parm1, .vptr parm2, .vptr parm3]

/-- Interface Descriptor, spec side: whether the method returns a value. -/
def PSM.hasResult : PSM → Bool
  | .GetSamples _ => false
  | .GetPeakInfo _ => false
  | .SaveState _ => false
  | .Peaks_Clear _ => false
  | .PeaksBuild_Finish => false
  | .SetAvailable _ => false
  | .SetSource _ => false
  | _ => true


/-- A host-owned `PCM_source` virtual object as seen by the Inbound Accessor:
an opaque object whose observable behaviour on the one method the claims
exercise (`Extended`) is a response function. -/
structure PCM_source where
  Extended : Int → Nat → Nat → Nat → Int

/-- Embedding of the Inbound Accessor `rust_to_cpp_PCM_source_Extended`
(`pcm_source.cpp` lines 74-76): `return self->Extended(call, parm1, parm2,
parm3);`. -/
def rust_to_cpp_PCM_source_Extended (self : PCM_source) (call : Int)
    (parm1 parm2 parm3 : Nat) : Int :=
  self.Extended call parm1 parm2 parm3

end reaper_pcm_source

namespace reaper_pcm_sink

/-- Method calls of the host interface shape `PCM_sink`: one constructor per
virtual method of `CppToRustPcmSink` (`src/main/low/src/pcm_sink.cpp`,
lines 63-101). -/
inductive SKM where
  | GetOutputInfoString (buf : Nat) (buflen : Int)
  | GetFileName
  | GetNumChannels
  | GetLength
  | GetFileSize
  | WriteMIDI (events : Nat) (len : Int) (samplerate : Nat)
  | WriteDoubles (samples : Nat) (len nch offset spacing : Int)
  | GetStartTime
  | SetStartTime (st : Nat)
  | WantMIDI
  | GetLastSecondPeaks (sz : Int) (buf : Nat)
  | GetPeakInfo (block : Nat)
  | Extended (call : Int) (parm1 parm2 parm3 : Nat)
deriving DecidableEq, Repr

/-- The Outbound Adapter class `CppToRustPcmSink`: its only state is the
`callback_target_` pointer supplied at construction. -/
structure CppToRustPcmSink where
  callback_target_ : Nat
deriving DecidableEq, Repr

/-- Embedding of the virtual method bodies of `CppToRustPcmSink`
(`pcm_sink.cpp` lines 63-101). -/
def CppToRustPcmSink.invoke (o : Oracle) (self : CppToRustPcmSink) :
    SKM → CppToRustPcmSink × List Effect × BVal
  | .GetOutputInfoString buf buflen =>
      (self, boundaryCallVoid o "cpp_to_rust_PCM_sink_GetOutputInfoString"
        self.callback_target_ [.vptr buf, .vint buflen])
  | .GetFileName =>
      (self, boundaryCall o "cpp_to_rust_PCM_sink_GetFileName" self.callback_target_ [])
  | .GetNumChannels =>
      (self, boundaryCall o "cpp_to_rust_PCM_sink_GetNumChannels" self.callback_target_ [])
  | .GetLength =>
      (self, boundaryCall o "cpp_to_rust_PCM_sink_GetLength" self.callback_target_ [])
  | .GetFileSize =>
      (self, boundaryCall o "cpp_to_rust_PCM_sink_GetFileSize" self.callback_target_ [])
  | .WriteMIDI events len samplerate =>
      (self, boundaryCallVoid o "cpp_to_rust_PCM_sink_WriteMIDI" self.callback_target_
        [.vptr events, .vint len, .vdbl samplerate])
  | .WriteDoubles samples len nch offset spacing =>
      (self, boundaryCallVoid o "cpp_to_rust_PCM_sink_WriteDoubles" self.callback_target_
        [.vptr samples, .vint len, .vint nch, .vint offset, .vint spacing])
  | .GetStartTime =>
      (self, boundaryCall o "cpp_to_rust_PCM_sink_GetStartTime" self.callback_target_ [])
  | .SetStartTime st =>
      (self, boundaryCallVoid o "cpp_to_rust_PCM_sink_SetStartTime" self.callback_target_
        [.vdbl st])
  | .WantMIDI =>
      (self, boundaryCall o "cpp_to_rust_PCM_sink_WantMIDI" self.callback_target_ [])
  | .GetLastSecondPeaks sz buf =>
      (self, boundaryCall o "cpp_to_rust_PCM_sink_GetLastSecondPeaks" self.callback_target_
        [.vint sz, .vptr buf])
  | .GetPeakInfo block =>
      (self, boundaryCallVoid o "cpp_to_rust_PCM_sink_GetPeakInfo" self.callback_target_
        [.vptr block])
  | .Extended call parm1 parm2 parm3 =>
      (self, boundaryCall o "cpp_to_rust_PCM_sink_Extended" self.callback_target_
        [.vint call, .vptr parm1, .vptr parm2, .vptr parm3])

/-- Interface Descriptor, spec side: entry-point names
(`cpp_to_rust_PCM_sink_<Method>`). -/
def SKM.entryName : SKM → String
  | .GetOutputInfoString _ _ => "cpp_to_rust_PCM_sink_GetOutputInfoString"
  | .GetFileName => "cpp_to_rust_PCM_sink_GetFileName"
  | .GetNumChannels => "cpp_to_rust_PCM_sink_GetNumChannels"
  | .GetLength => "cpp_to_rust_PCM_sink_GetLength"
  | .GetFileSize => "cpp_to_rust_PCM_sink_GetFileSize"
  | .WriteMIDI _ _ _ => "cpp_to_rust_PCM_sink_WriteMIDI"
  | .WriteDoubles _ _ _ _ _ => "cpp_to_rust_PCM_sink_WriteDoubles"
  | .GetStartTime => "cpp_to_rust_PCM_sink_GetStartTime"
  | .SetStartTime _ => "cpp_to_rust_PCM_sink_SetStartTime"
  | .WantMIDI => "cpp_to_rust_PCM_sink_WantMIDI"
  | .GetLastSecondPeaks _ _ => "cpp_to_rust_PCM_sink_GetLastSecondPeaks"
  | .GetPeakInfo _ => "cpp_to_rust_PCM_sink_GetPeakInfo"
  | .Extended _ _ _ _ => "cpp_to_rust_PCM_sink_Extended"

/-- Interface Descriptor, spec side: marshalled arguments in declared order. -/
def SKM.boundaryArgs : SKM → List BVal
  | .GetOutputInfoString buf buflen => [.vptr buf, .vint buflen]
  | .GetFileName => []
  | .GetNumChannels => []
  | .GetLength => []
  | .GetFileSize => []
  | .WriteMIDI events len samplerate => [.vptr events, .vint len, .vdbl samplerate]
  | .WriteDoubles samples len nch offset spacing =>
      [.vptr samples, .vint len, .vint nch, .vint offset, .vint spacing]
  | .GetStartTime => []
  | .SetStartTime st => [.vdbl st]
  | .WantMIDI => []
  | .GetLastSecondPeaks sz buf => [.vint sz, .vptr buf]
  | .GetPeakInfo block => [.vptr block]
  | .Extended call parm1 parm2 parm3 => [.vint call, .vptr parm1, .vptr parm2, .vptr parm3]

/-- Interface Descriptor, spec side: whether the method returns a value. -/
def SKM.hasResult : SKM → Bool
  | .GetOutputInfoString _ _ => false
  | .WriteMIDI _ _ _ => false
  | .WriteDoubles _ _ _ _ _ => false
  | .SetStartTime _ => false
  | .GetPeakInfo _ => false
  | _ => true


end reaper_pcm_sink

namespace reaper_project_state_context

/-- Non-variadic method calls of the host interface shape
`ProjectStateContext`: one constructor per virtual method of
`CppToRustProjectStateContext` other than the variadic `AddLine`
(`src/main/low/src/project_state_context.cpp`, lines 42-53). -/
inductive PSCM where
  | GetLine (buf : Nat) (buflen : Int)
  | GetOutputSize
  | GetTempFlag
  | SetTempFlag (flag : Int)
deriving DecidableEq, Repr

/-- The Outbound Adapter class `CppToRustProjectStateContext`: its only state
is the `callback_target_` pointer supplied at construction. -/
structure CppToRustProjectStateContext where
  callback_target_ : Nat
deriving DecidableEq, Repr

/-- Embedding of the non-variadic virtual method bodies of
`CppToRustProjectStateContext` (`project_state_context.cpp` lines 42-53). -/
def CppToRustProjectStateContext.invoke (o : Oracle) (self : CppToRustProjectStateContext) :
    PSCM → CppToRustProjectStateContext × List Effect × BVal
  | .GetLine buf buflen =>
      (self, boundaryCall o "cpp_to_rust_ProjectStateContext_GetLine" self.callback_target_
        [.vptr buf, .vint buflen])
  | .GetOutputSize =>
      (self, boundaryCall o "cpp_to_rust_ProjectStateContext_GetOutputSize"
        self.callback_target_ [])
  | .GetTempFlag =>
      (self, boundaryCall o "cpp_to_rust_ProjectStateContext_GetTempFlag"
        self.callback_target_ [])
  | .SetTempFlag flag =>
      (self, boundaryCallVoid o "cpp_to_rust_ProjectStateContext_SetTempFlag"
        self.callback_target_ [.vint flag])

/-- Interface Descriptor, spec side: entry-point names
(`cpp_to_rust_ProjectStateContext_<Method>`). -/
def PSCM.entryName : PSCM → String
  | .GetLine _ _ => "cpp_to_rust_ProjectStateContext_GetLine"
  | .GetOutputSize => "cpp_to_rust_ProjectStateContext_GetOutputSize"
  | .GetTempFlag => "cpp_to_rust_ProjectStateContext_GetTempFlag"
  | .SetTempFlag _ => "cpp_to_rust_ProjectStateContext_SetTempFlag"

/-- Interface Descriptor, spec side: marshalled arguments in declared order. -/
def PSCM.boundaryArgs : PSCM → List BVal
  | .GetLine buf buflen => [.vptr buf, .vint buflen]
  | .GetOutputSize => []
  | .GetTempFlag => []
  | .SetTempFlag flag => [.vint flag]

/-- Interface Descriptor, spec side: whether the method returns a value. -/
def PSCM.hasResult : PSCM → Bool
  | .SetTempFlag _ => false
  | _ => true


/-- A variadic argument of the printf-style `AddLine`: only `%d`-style
integers and `%s`-style strings are needed by the claims. -/
inductive FmtArg where
  | fint (i : Int)
  | fstr (s : String)
deriving DecidableEq, Repr

/-- Embedding of `CppToRustProjectStateContext::AddLine(const char* fmt, ...)`
(`project_state_context.cpp` lines 33-41).  The body is
`cpp_to_rust_ProjectStateContext_AddLine(this->callback_target_, fmt);`:
only the raw format string crosses the boundary; the variadic arguments
`args` are never read. -/
def CppToRustProjectStateContext.AddLine (o : Oracle) (self : CppToRustProjectStateContext)
    (fmt : String) (args : List FmtArg) : CppToRustProjectStateContext × List Effect × BVal :=
  (self, boundaryCallVoid o "cpp_to_rust_ProjectStateContext_AddLine" self.callback_target_
    [.vstr fmt])

/-- Embedding of the Inbound Accessor `rust_to_cpp_ProjectStateContext_AddLine`
(`project_state_context.cpp` lines 5-8): the body is entirely commented out
("TODO-high This can't work. Wait for variadics support in stable Rust."),
so the call does nothing at all. -/
def rust_to_cpp_ProjectStateContext_AddLine (self : Nat) (line : String) : List Effect :=
  []

/-- Modelled from the spec: the printf-style expansion the spec's
Variadic-Formatting Boundary (section 4.4) requires to happen before the
line crosses the boundary — `%d` consumes an integer argument, `%s` a string
argument, every other character is copied verbatim.  This rendering step is
absent from the source (`AddLine` forwards the raw format string); the
definition exists only to state what the claim demands. -/
def formatLine : List Char → List FmtArg → List Char
  | [], _ => []
  | '%' :: 'd' :: rest, FmtArg.fint i :: args => (toString i).data ++ formatLine rest args
  | '%' :: 's' :: rest, FmtArg.fstr s :: args => s.data ++ formatLine rest args
  | c :: rest, args => c :: formatLine rest args

/-- Modelled from the spec: `formatLine` on whole strings. -/
def formatLineS (fmt : String) (args : List FmtArg) : String :=
  ⟨formatLine fmt.data args⟩

end reaper_project_state_context

namespace reaper_resample

/-- A host-owned `REAPER_Resample_Interface` virtual object as seen by the
Inbound Accessor: an opaque object whose observable behaviour on the one
method the claims exercise (`Extended`) is a response function. -/
structure REAPER_Resample_Interface where
  Extended : Int → Nat → Nat → Nat → Int

/-- Embedding of the Inbound Accessor `REAPER_Resample_Interface_Extended`
(`src/main/low/src/resample.cpp` lines 23-25): `return self->Extended(call,
parm1, parm2, parm3);`. -/
def REAPER_Resample_Interface_Extended (self : REAPER_Resample_Interface) (call : Int)
    (parm1 parm2 parm3 : Nat) : Int :=
  self.Extended call parm1 parm2 parm3

end reaper_resample

namespace reaper_midi

/-- A host-owned `midi_Output` virtual object as seen by the Inbound
Accessor: an opaque object whose `Send` behaviour is a response function
yielding the effects the host-side implementation performs. -/
structure midi_Output where
  Send : Nat → Nat → Nat → Int → List Effect

/-- Embedding of the Inbound Accessor `midi_Output_Send`
(`src/main/low/src/midi.cpp` lines 22-24): the body is the single virtual
call `self->Send(status, d1, d2, frame_offset);` — the accessor adds no
effect of its own. -/
def midi_Output_Send (self : midi_Output) (status d1 d2 : Nat) (frame_offset : Int) :
    List Effect :=
  self.Send status d1 d2 frame_offset

end reaper_midi

/-- Process state for the creation / destruction entry points: per interface
shape, the live adapter objects as `(address, callback target)` pairs;
`foreign` is the set of Foreign Handles currently owned by the
implementation side (this layer never touches it); `next` is the
fresh-address source used by `new`. -/
structure World where
  surfaces : List (Nat × Nat)
  sources : List (Nat × Nat)
  sinks : List (Nat × Nat)
  contexts : List (Nat × Nat)
  foreign : List Nat
  next : Nat
deriving DecidableEq, Repr

/-- Heap, lock and blocking-I/O effects — those the spec forbids on
real-time call paths. -/
def isRtViolation : Effect → Bool
  | Effect.alloc _ => true
  | Effect.free _ => true
  | Effect.lockAcquire => true
  | Effect.blockingIo => true
  | _ => false

/-- The Foreign Handles targeted by the cross-boundary calls of a trace, in
order. -/
def callTargets : List Effect → List Nat
  | [] => []
  | Effect.call c :: es => c.target :: callTargets es
  | _ :: es => callTargets es

namespace reaper_control_surface

/-- Embedding of `create_cpp_to_rust_control_surface` (`control_surface.cpp`
lines 80-82): `return new CppToRustControlSurface(callback_target);` — an
unconditional allocation of a fresh adapter; there is no registry check and
no failure path. -/
def create_cpp_to_rust_control_surface (w : World) (callback_target : Nat) :
    World × Nat × List Effect :=
  ({ w with surfaces := (w.next, callback_target) :: w.surfaces, next := w.next + 1 },
    w.next, [Effect.alloc w.next])

/-- Embedding of `delete_control_surface` (`control_surface.cpp` lines
84-86): `delete surface;` — an unconditional deallocation with no
membership or idempotence check, and no operation on any Foreign Handle. -/
def delete_control_surface (w : World) (surface : Nat) : World × List Effect :=
  ({ w with surfaces := w.surfaces.filter (fun q => q.1 != surface) },
    [Effect.free surface])

/-- Iterated `create_cpp_to_rust_control_surface` over a list of callback
targets. -/
def createManySurfaces (w : World) : List Nat → World
  | [] => w
  | t :: ts => createManySurfaces (create_cpp_to_rust_control_surface w t).1 ts

/-- A sequence of virtual method invocations on one adapter object,
threading the object through (no method body writes to it) and
concatenating the effect traces. -/
def CppToRustControlSurface.runCalls (o : Oracle) (self : CppToRustControlSurface) :
    List CSM → CppToRustControlSurface × List Effect
  | [] => (self, [])
  | m :: ms =>
      let r := self.invoke o m
      let rest := r.1.runCalls o ms
      (rest.1, r.2.1 ++ rest.2)

end reaper_control_surface

namespace reaper_pcm_source

/-- Embedding of `create_cpp_to_rust_pcm_source` (`pcm_source.cpp` lines
163-165): `return new CppToRustPcmSource(callback_target);`. -/
def create_cpp_to_rust_pcm_source (w : World) (callback_target : Nat) :
    World × Nat × List Effect :=
  ({ w with sources := (w.next, callback_target) :: w.sources, next := w.next + 1 },
    w.next, [Effect.alloc w.next])

/-- Embedding of `delete_pcm_source` (`pcm_source.cpp` lines 167-169):
`delete source;`. -/
def delete_pcm_source (w : World) (source : Nat) : World × List Effect :=
  ({ w with sources := w.sources.filter (fun q => q.1 != source) },
    [Effect.free source])

/-- A sequence of virtual method invocations on one adapter object. -/
def CppToRustPcmSource.runCalls (o : Oracle) (self : CppToRustPcmSource) :
    List PSM → CppToRustPcmSource × List Effect
  | [] => (self, [])
  | m :: ms =>
      let r := self.invoke o m
      let rest := r.1.runCalls o ms
      (rest.1, r.2.1 ++ rest.2)

/-- `n` sequential invocations of the real-time method `GetSamples` on one
adapter. -/
def rtGetSamplesTrace (o : Oracle) (h : Nat) (block : Nat) : Nat → List Effect
  | 0 => []
  | n + 1 =>
      (CppToRustPcmSource.invoke o ⟨h⟩ (PSM.GetSamples block)).2.1 ++
        rtGetSamplesTrace o h block n

end reaper_pcm_source

namespace reaper_pcm_sink

/-- Embedding of `create_cpp_to_rust_pcm_sink` (`pcm_sink.cpp` lines
105-107): `return new CppToRustPcmSink(callback_target);`. -/
def create_cpp_to_rust_pcm_sink (w : World) (callback_target : Nat) :
    World × Nat × List Effect :=
  ({ w with sinks := (w.next, callback_target) :: w.sinks, next := w.next + 1 },
    w.next, [Effect.alloc w.next])

/-- Embedding of `delete_pcm_sink` (`pcm_sink.cpp` lines 109-111):
`delete sink;`. -/
def delete_pcm_sink (w : World) (sink : Nat) : World × List Effect :=
  ({ w with sinks := w.sinks.filter (fun q => q.1 != sink) }, [Effect.free sink])

end reaper_pcm_sink

namespace reaper_project_state_context

/-- Embedding of `create_cpp_to_rust_project_state_context`
(`project_state_context.cpp` lines 56-58). -/
def create_cpp_to_rust_project_state_context (w : World) (callback_target : Nat) :
    World × Nat × List Effect :=
  ({ w with contexts := (w.next, callback_target) :: w.contexts, next := w.next + 1 },
    w.next, [Effect.alloc w.next])

/-- Embedding of `delete_project_state_context` (`project_state_context.cpp`
lines 60-62): `delete context;`. -/
def delete_project_state_context (w : World) (context : Nat) : World × List Effect :=
  ({ w with contexts := w.contexts.filter (fun q => q.1 != context) },
    [Effect.free context])

/-- A sequence of non-variadic method invocations on one adapter object. -/
def CppToRustProjectStateContext.runCalls (o : Oracle) (self : CppToRustProjectStateContext) :
    List PSCM → CppToRustProjectStateContext × List Effect
  | [] => (self, [])
  | m :: ms =>
      let r := self.invoke o m
      let rest := r.1.runCalls o ms
      (rest.1, r.2.1 ++ rest.2)

end reaper_project_state_context

namespace reaper_rs_control_surface

/-- The function-local `static ReaperRsControlSurface CONTROL_SURFACE(
callback_target)` of the snapshot `src/main/src/low_level/control_surface.cpp`
(lines 77-80): `addr` is the static object's fixed address, `inst` is `none`
before the first call and `some t` once the static has been constructed
with callback target `t`. -/
structure SurfaceSlot where
  addr : Nat
  inst : Option Nat
deriving DecidableEq, Repr

/-- Embedding of `create_control_surface` (snapshot, lines 77-80) under C++
function-local-static semantics: the instance is constructed exactly once,
on the first call, with that call's `callback_target`; every call returns
the static instance's address. -/
def create_control_surface (s : SurfaceSlot) (callback_target : Nat) : SurfaceSlot × Nat :=
  match s.inst with
  | some _ => (s, s.addr)
  | none => ({ s with inst := some callback_target }, s.addr)

/-- Iterated `create_control_surface`, collecting the returned addresses. -/
def runCreates (s : SurfaceSlot) : List Nat → SurfaceSlot × List Nat
  | [] => (s, [])
  | t :: ts =>
      let r := create_control_surface s t
      let rest := runCreates r.1 ts
      (rest.1, r.2 :: rest.2)

end reaper_rs_control_surface

namespace reaper_rs_surface

/-- The function-local `static ReaperRsControlSurface SURFACE` of the
snapshot `src/main/src/low_level/surface.cpp` (lines 72-75): the class has
no constructor argument, so the slot is just the static object's fixed
address and a constructed flag. -/
structure StaticSlot where
  addr : Nat
  constructed : Bool
deriving DecidableEq, Repr

/-- Embedding of `get_surface` (snapshot, lines 72-75): constructs the
static on the first call and returns its address on every call. -/
def get_surface (s : StaticSlot) : StaticSlot × Nat :=
  ({ s with constructed := true }, s.addr)

/-- Iterated `get_surface`, collecting the returned addresses. -/
def runGets (s : StaticSlot) : Nat → StaticSlot × List Nat
  | 0 => (s, [])
  | n + 1 =>
      let r := get_surface s
      let rest := runGets r.1 n
      (rest.1, r.2 :: rest.2)

end reaper_rs_surface

/-- Whether an effect releases a Foreign Handle (an operation on the
implementation side's object rather than on a locally owned Host Object). -/
def Effect.isForeignRelease : Effect → Bool
  | Effect.foreignRelease _ => true
  | _ => false

namespace reaper_control_surface

/-- Modelled from the spec: the "inert" value of each control-surface method
(false for boolean results, 0 for integer results, null for pointer
results, nothing for void methods), which the spec's stale-handle error
policy says a call on a torn-down handle must return.  No such table exists
in the source; it is stated here only to formalise claim C3. -/
def CSM.inertValue : CSM → BVal
  | .GetTypeString => .vptr 0
  | .GetDescString => .vptr 0
  | .GetConfigString => .vptr 0
  | .GetTouchState _ _ => .vbool false
  | .IsKeyDown _ => .vbool false
  | .Extended _ _ _ _ => .vint 0
  | _ => .vunit

end reaper_control_surface

/-- Claim C3 exactly as stated: a control-surface adapter method invoked
while its Foreign Handle is not in the Lifecycle Registry forwards nothing
and returns the method's inert value. -/
def staleHandleInertPolicy : Prop :=
  ∀ (reg : List Nat) (o : Oracle) (h : Nat) (m : reaper_control_surface.CSM),
    h ∉ reg →
      (reaper_control_surface.CppToRustControlSurface.invoke o ⟨h⟩ m).2.1 = [] ∧
      (reaper_control_surface.CppToRustControlSurface.invoke o ⟨h⟩ m).2.2 = m.inertValue

/-- Claim C4 exactly as stated: a destroy call on an already-removed object
is a no-op — it releases nothing. -/
def unregisterIdempotent : Prop :=
  ∀ (w : World) (p : Nat),
    p ∉ w.surfaces.map Prod.fst →
      (reaper_control_surface.delete_control_surface w p).2 = []

/-- Claim C5 exactly as stated (its consequence on live adapters): after any
sequence of create calls starting from an empty process state, at most one
live control-surface adapter wraps any given handle. -/
def oneAdapterPerHandle : Prop :=
  ∀ (ts : List Nat) (t : Nat),
    ((reaper_control_surface.createManySurfaces ⟨[], [], [], [], [], 0⟩ ts).surfaces.filter
        (fun q => q.2 == t)).length ≤ 1

namespace reaper_control_surface

/-- Every control-surface method body forwards exactly one call, to the
descriptor's entry point, with the stored handle and the descriptor's
marshalled arguments, returning the oracle's answer unchanged. -/
theorem CppToRustControlSurface.invoke_spec_control_surface (o : Oracle) (self : CppToRustControlSurface)
    (m : CSM) :
    self.invoke o m =
      (self, [Effect.call ⟨m.entryName, self.callback_target_, m.boundaryArgs⟩],
        if m.hasResult then o ⟨m.entryName, self.callback_target_, m.boundaryArgs⟩
        else BVal.vunit) := by
  cases m <;> rfl

/-- A run of control-surface method calls leaves the adapter unchanged and
targets the construction handle in every forwarded call. -/
theorem CppToRustControlSurface.runCalls_spec_control_surface (o : Oracle) (self : CppToRustControlSurface)
    (ms : List CSM) :
    (self.runCalls o ms).1 = self ∧
    callTargets (self.runCalls o ms).2 = List.replicate ms.length self.callback_target_ := by
  induction ms with
  | nil => exact ⟨rfl, rfl⟩
  | cons m ms ih =>
      simp only [CppToRustControlSurface.runCalls, CppToRustControlSurface.invoke_spec_control_surface,
        List.cons_append, List.nil_append, callTargets, List.length_cons,
        List.replicate_succ]
      exact ⟨ih.1, by rw [ih.2]⟩

end reaper_control_surface

namespace reaper_pcm_source

/-- Every PCM-source method body forwards exactly one call, to the
descriptor's entry point, with the stored handle and the descriptor's
marshalled arguments, returning the oracle's answer unchanged. -/
theorem CppToRustPcmSource.invoke_spec_pcm_source (o : Oracle) (self : CppToRustPcmSource) (m : PSM) :
    self.invoke o m =
      (self, [Effect.call ⟨m.entryName, self.callback_target_, m.boundaryArgs⟩],
        if m.hasResult then o ⟨m.entryName, self.callback_target_, m.boundaryArgs⟩
        else BVal.vunit) := by
  cases m <;> rfl

/-- A run of PCM-source method calls leaves the adapter unchanged and
targets the construction handle in every forwarded call. -/
theorem CppToRustPcmSource.runCalls_spec_pcm_source (o : Oracle) (self : CppToRustPcmSource)
    (ms : List PSM) :
    (self.runCalls o ms).1 = self ∧
    callTargets (self.runCalls o ms).2 = List.replicate ms.length self.callback_target_ := by
  induction ms with
  | nil => exact ⟨rfl, rfl⟩
  | cons m ms ih =>
      simp only [CppToRustPcmSource.runCalls, CppToRustPcmSource.invoke_spec_pcm_source,
        List.cons_append, List.nil_append, callTargets, List.length_cons,
        List.replicate_succ]
      exact ⟨ih.1, by rw [ih.2]⟩

/-- `n` sequential `GetSamples` invocations perform no heap, lock or
blocking-I/O effect. -/
theorem rtGetSamplesTrace_clean (o : Oracle) (h block n : Nat) :
    (rtGetSamplesTrace o h block n).countP isRtViolation = 0 := by
  induction n with
  | zero => rfl
  | succ n ih =>
      simp only [rtGetSamplesTrace, List.countP_append, ih]
      rfl

end reaper_pcm_source

namespace reaper_pcm_sink

/-- Every PCM-sink method body forwards exactly one call, to the
descriptor's entry point, with the stored handle and the descriptor's
marshalled arguments, returning the oracle's answer unchanged. -/
theorem CppToRustPcmSink.invoke_spec_pcm_sink (o : Oracle) (self : CppToRustPcmSink) (m : SKM) :
    self.invoke o m =
      (self, [Effect.call ⟨m.entryName, self.callback_target_, m.boundaryArgs⟩],
        if m.hasResult then o ⟨m.entryName, self.callback_target_, m.boundaryArgs⟩
        else BVal.vunit) := by
  cases m <;> rfl

end reaper_pcm_sink

namespace reaper_project_state_context

/-- Every non-variadic project-state-context method body forwards exactly
one call, to the descriptor's entry point, with the stored handle and the
descriptor's marshalled arguments, returning the oracle's answer
unchanged. -/
theorem CppToRustProjectStateContext.invoke_spec_psc (o : Oracle)
    (self : CppToRustProjectStateContext) (m : PSCM) :
    self.invoke o m =
      (self, [Effect.call ⟨m.entryName, self.callback_target_, m.boundaryArgs⟩],
        if m.hasResult then o ⟨m.entryName, self.callback_target_, m.boundaryArgs⟩
        else BVal.vunit) := by
  cases m <;> rfl

/-- A run of non-variadic project-state-context method calls leaves the
adapter unchanged and targets the construction handle in every forwarded
call. -/
theorem CppToRustProjectStateContext.runCalls_spec_psc (o : Oracle)
    (self : CppToRustProjectStateContext) (ms : List PSCM) :
    (self.runCalls o ms).1 = self ∧
    callTargets (self.runCalls o ms).2 = List.replicate ms.length self.callback_target_ := by
  induction ms with
  | nil => exact ⟨rfl, rfl⟩
  | cons m ms ih =>
      simp only [CppToRustProjectStateContext.runCalls,
        CppToRustProjectStateContext.invoke_spec_psc, List.cons_append, List.nil_append,
        callTargets, List.length_cons, List.replicate_succ]
      exact ⟨ih.1, by rw [ih.2]⟩

end reaper_project_state_context

namespace reaper_rs_control_surface

/-- Once the function-local static has been constructed, every further call
returns the same address and leaves the slot unchanged. -/
theorem runCreates_initialized (s : SurfaceSlot) (t0 : Nat) (h : s.inst = some t0)
    (ts : List Nat) :
    runCreates s ts = (s, List.replicate ts.length s.addr) := by
  induction ts with
  | nil => rfl
  | cons t ts ih =>
      simp only [runCreates, create_control_surface, h, ih, List.length_cons,
        List.replicate_succ]

end reaper_rs_control_surface

namespace reaper_rs_surface

/-- Every `get_surface` call returns the static instance's address. -/
theorem runGets_spec (s : StaticSlot) (n : Nat) :
    (runGets s n).2 = List.replicate n s.addr := by
  induction n generalizing s with
  | zero => rfl
  | succ n ih => simp only [runGets, get_surface, ih, List.replicate_succ]

end reaper_rs_surface

/-- C1: For every supported interface shape (control surface, PCM source,
PCM sink, project-state context) and every virtual method other than the
variadic `AddLine`, invoking the method on an Outbound Adapter constructed
over Foreign Handle `h` performs exactly one cross-boundary call — to that
method's entry point, carrying `h` and the method's arguments unchanged
(primitives by value, text by content, pointers as-is) — and returns that
call's result unchanged. -/
theorem C1_outbound_adapter_round_trip :
    (∀ (o : Oracle) (h : Nat) (m : reaper_control_surface.CSM),
      reaper_control_surface.CppToRustControlSurface.invoke o ⟨h⟩ m =
        (⟨h⟩, [Effect.call ⟨m.entryName, h, m.boundaryArgs⟩],
          if m.hasResult then o ⟨m.entryName, h, m.boundaryArgs⟩ else BVal.vunit)) ∧
    (∀ (o : Oracle) (h : Nat) (m : reaper_pcm_source.PSM),
      reaper_pcm_source.CppToRustPcmSource.invoke o ⟨h⟩ m =
        (⟨h⟩, [Effect.call ⟨m.entryName, h, m.boundaryArgs⟩],
          if m.hasResult then o ⟨m.entryName, h, m.boundaryArgs⟩ else BVal.vunit)) ∧
    (∀ (o : Oracle) (h : Nat) (m : reaper_pcm_sink.SKM),
      reaper_pcm_sink.CppToRustPcmSink.invoke o ⟨h⟩ m =
        (⟨h⟩, [Effect.call ⟨m.entryName, h, m.boundaryArgs⟩],
          if m.hasResult then o ⟨m.entryName, h, m.boundaryArgs⟩ else BVal.vunit)) ∧
    (∀ (o : Oracle) (h : Nat) (m : reaper_project_state_context.PSCM),
      reaper_project_state_context.CppToRustProjectStateContext.invoke o ⟨h⟩ m =
        (⟨h⟩, [Effect.call ⟨m.entryName, h, m.boundaryArgs⟩],
          if m.hasResult then o ⟨m.entryName, h, m.boundaryArgs⟩ else BVal.vunit)) :=
  ⟨fun o h m => reaper_control_surface.CppToRustControlSurface.invoke_spec_control_surface o ⟨h⟩ m,
    fun o h m => reaper_pcm_source.CppToRustPcmSource.invoke_spec_pcm_source o ⟨h⟩ m,
    fun o h m => reaper_pcm_sink.CppToRustPcmSink.invoke_spec_pcm_sink o ⟨h⟩ m,
    fun o h m => reaper_project_state_context.CppToRustProjectStateContext.invoke_spec_psc o ⟨h⟩ m⟩

/-- C2 (code evaluated at the failing input): `AddLine` invoked with format
`"%d-%s"` and arguments `(3, "ab")` sends the raw, unexpanded format string
`"%d-%s"` across the boundary — one call carrying exactly that text — while
the rendering the spec mandates yields `"3-ab"`, a different text.  The
variadic arguments never cross. -/
theorem C2_addline_raw_format_crosses_boundary :
    (reaper_project_state_context.CppToRustProjectStateContext.AddLine defaultOracle ⟨1⟩
        "%d-%s" [.fint 3, .fstr "ab"]).2.1 =
      [Effect.call ⟨"cpp_to_rust_ProjectStateContext_AddLine", 1, [BVal.vstr "%d-%s"]⟩] ∧
    reaper_project_state_context.formatLineS "%d-%s" [.fint 3, .fstr "ab"] = "3-ab" ∧
    ("%d-%s" : String) ≠ "3-ab" :=
  ⟨rfl, by decide, by decide⟩

/-- C3 counterexample: the claim's stale-handle policy is false — with an
empty registry (handle 5 torn down), invoking `GetTouchState` on the
adapter still forwards a cross-boundary call, because the method bodies
contain no registry lookup at all. -/
theorem C3_counterexample_stale_handle_still_forwards : ¬ staleHandleInertPolicy := by
  intro hp
  exact absurd (hp [] defaultOracle 5 (.GetTouchState 7 1) (by decide)).1 (by decide)

/-- C3 amended: the adapter performs no registry validation — a method
invoked on a handle absent from any registry (already torn down) forwards
the call to that stale handle exactly as when live, as a single
cross-boundary call whose result is whatever the callee returns; the shim
itself has no exception path. -/
theorem C3_amended_no_stale_handle_guard (reg : List Nat) (o : Oracle) (h : Nat)
    (hstale : h ∉ reg) :
    (∀ m : reaper_control_surface.CSM,
      (reaper_control_surface.CppToRustControlSurface.invoke o ⟨h⟩ m).2.1 =
        [Effect.call ⟨m.entryName, h, m.boundaryArgs⟩]) ∧
    (∀ m : reaper_pcm_source.PSM,
      (reaper_pcm_source.CppToRustPcmSource.invoke o ⟨h⟩ m).2.1 =
        [Effect.call ⟨m.entryName, h, m.boundaryArgs⟩]) :=
  ⟨fun m => by rw [reaper_control_surface.CppToRustControlSurface.invoke_spec_control_surface],
    fun m => by rw [reaper_pcm_source.CppToRustPcmSource.invoke_spec_pcm_source]⟩

/-- C3 amended, witnessed at registry `[]`, handle 5, method `Run`. -/
theorem C3_amended_witness :
    (5 ∉ ([] : List Nat)) ∧
    (reaper_control_surface.CppToRustControlSurface.invoke defaultOracle ⟨5⟩
        reaper_control_surface.CSM.Run).2.1 =
      [Effect.call ⟨"cpp_to_rust_IReaperControlSurface_Run", 5, []⟩] :=
  ⟨by decide,
    (C3_amended_no_stale_handle_guard [] defaultOracle 5 (by decide)).1
      reaper_control_surface.CSM.Run⟩

/-- C4 counterexample: the claimed idempotence is false — a destroy call on
an object absent from the live set still performs a release (the entry
point is an unconditional `delete`), so a second call on the same object
frees it a second time. -/
theorem C4_counterexample_second_delete_frees_again : ¬ unregisterIdempotent := by
  intro hp
  exact absurd (hp ⟨[], [], [], [], [], 0⟩ 5 (by decide)) (by decide)

/-- C4 amended: the destroy entry points are not idempotent — called on an
already-removed object they unconditionally perform the release again (a
double free); `delete_control_surface` and `delete_pcm_source` emit exactly
one `free` of the given address on every call, live or not. -/
theorem C4_amended_second_delete_double_frees (w : World) (p : Nat)
    (hgone : p ∉ w.surfaces.map Prod.fst) (hgone2 : p ∉ w.sources.map Prod.fst) :
    (reaper_control_surface.delete_control_surface w p).2 = [Effect.free p] ∧
    (reaper_pcm_source.delete_pcm_source w p).2 = [Effect.free p] :=
  ⟨rfl, rfl⟩

/-- C4 amended, witnessed on an empty process state at address 5. -/
theorem C4_amended_witness :
    (5 ∉ (([] : List (Nat × Nat)).map Prod.fst)) ∧
    (reaper_control_surface.delete_control_surface ⟨[], [], [], [], [], 0⟩ 5).2 =
      [Effect.free 5] :=
  ⟨by decide,
    (C4_amended_second_delete_double_frees ⟨[], [], [], [], [], 0⟩ 5 (by decide)
      (by decide)).1⟩

/-- C5 counterexample: the claimed one-live-adapter-per-handle invariant is
false — creating twice with handle 7 from an empty state yields two live
adapters wrapping 7, because the create entry point has no registry check
and no failure path. -/
theorem C5_counterexample_duplicate_registration_succeeds : ¬ oneAdapterPerHandle := by
  intro hp
  exact absurd (hp [7, 7] 7) (by decide)

/-- C5 amended: the create entry point cannot fail — it always allocates a
fresh adapter wrapping `t`; in particular, when a live adapter already
wraps `t`, after the call two distinct live adapters wrap `t`. -/
theorem C5_amended_create_always_allocates (w : World) (t : Nat)
    (hwf : ∀ q ∈ w.surfaces, q.1 < w.next) (a : Nat) (ha : (a, t) ∈ w.surfaces) :
    (w.next, t) ∈ (reaper_control_surface.create_cpp_to_rust_control_surface w t).1.surfaces ∧
    (a, t) ∈ (reaper_control_surface.create_cpp_to_rust_control_surface w t).1.surfaces ∧
    a ≠ w.next := by
  refine ⟨List.mem_cons_self _ _, List.mem_cons_of_mem _ ha, Nat.ne_of_lt (hwf _ ha)⟩

/-- C5 amended, witnessed: handle 7 already wrapped by the adapter at
address 0; the create call adds a second adapter at address 1. -/
theorem C5_amended_witness :
    ((1 : Nat), (7 : Nat)) ∈
        (reaper_control_surface.create_cpp_to_rust_control_surface
          ⟨[(0, 7)], [], [], [], [], 1⟩ 7).1.surfaces ∧
    ((0 : Nat), (7 : Nat)) ∈
        (reaper_control_surface.create_cpp_to_rust_control_surface
          ⟨[(0, 7)], [], [], [], [], 1⟩ 7).1.surfaces ∧
    (0 : Nat) ≠ 1 :=
  C5_amended_create_always_allocates ⟨[(0, 7)], [], [], [], [], 1⟩ 7 (by decide) 0 (by decide)

/-- C6: the Foreign Handle held by a Host Object is the one supplied at
construction and is never reassigned — after any sequence of method
invocations the adapter still holds it, and every forwarded call of the run
targets exactly it (control surface, PCM source and project-state context;
the variadic `AddLine` also targets it). -/
theorem C6_handle_fixed_for_lifetime :
    (∀ (o : Oracle) (h : Nat) (ms : List reaper_control_surface.CSM),
      (reaper_control_surface.CppToRustControlSurface.runCalls o ⟨h⟩ ms).1 = ⟨h⟩ ∧
      callTargets (reaper_control_surface.CppToRustControlSurface.runCalls o ⟨h⟩ ms).2 =
        List.replicate ms.length h) ∧
    (∀ (o : Oracle) (h : Nat) (ms : List reaper_pcm_source.PSM),
      (reaper_pcm_source.CppToRustPcmSource.runCalls o ⟨h⟩ ms).1 = ⟨h⟩ ∧
      callTargets (reaper_pcm_source.CppToRustPcmSource.runCalls o ⟨h⟩ ms).2 =
        List.replicate ms.length h) ∧
    (∀ (o : Oracle) (h : Nat) (ms : List reaper_project_state_context.PSCM),
      (reaper_project_state_context.CppToRustProjectStateContext.runCalls o ⟨h⟩ ms).1 = ⟨h⟩ ∧
      callTargets
          (reaper_project_state_context.CppToRustProjectStateContext.runCalls o ⟨h⟩ ms).2 =
        List.replicate ms.length h) ∧
    (∀ (o : Oracle) (h : Nat) (fmt : String)
        (args : List reaper_project_state_context.FmtArg),
      callTargets (reaper_project_state_context.CppToRustProjectStateContext.AddLine
          o ⟨h⟩ fmt args).2.1 = [h]) :=
  ⟨fun o h ms => reaper_control_surface.CppToRustControlSurface.runCalls_spec_control_surface o ⟨h⟩ ms,
    fun o h ms => reaper_pcm_source.CppToRustPcmSource.runCalls_spec_pcm_source o ⟨h⟩ ms,
    fun o h ms =>
      reaper_project_state_context.CppToRustProjectStateContext.runCalls_spec_psc o ⟨h⟩ ms,
    fun o h fmt args => rfl⟩

/-- C7: destroying a Host Object releases only the Host Object itself — the
destroy entry points emit exactly one `free` of the adapter's address,
never any release of a Foreign Handle, and leave the set of live Foreign
Handles unchanged. -/
theorem C7_destroy_leaves_foreign_handle_untouched (w : World) (p : Nat) :
    ((reaper_control_surface.delete_control_surface w p).1.foreign = w.foreign ∧
      (reaper_control_surface.delete_control_surface w p).2 = [Effect.free p]) ∧
    ((reaper_pcm_sink.delete_pcm_sink w p).1.foreign = w.foreign ∧
      (reaper_pcm_sink.delete_pcm_sink w p).2 = [Effect.free p]) ∧
    ((reaper_project_state_context.delete_project_state_context w p).1.foreign = w.foreign ∧
      (reaper_project_state_context.delete_project_state_context w p).2 =
        [Effect.free p]) ∧
    ((reaper_control_surface.delete_control_surface w p).2.filter
        Effect.isForeignRelease = []) :=
  ⟨⟨rfl, rfl⟩, ⟨rfl, rfl⟩, ⟨rfl, rfl⟩, rfl⟩

/-- C8: every `Extended` call is forwarded transparently — the call code and
all three opaque parameters pass unchanged and the callee's result is
returned unchanged (outbound adapter and both inbound accessors) — and
whenever the callee answers codes outside its recognized set with the "not
handled" sentinel 0, the forwarder answers 0 for such codes too. -/
theorem C8_extended_transparent_catch_all :
    (∀ (o : Oracle) (h : Nat) (call : Int) (p1 p2 p3 : Nat),
      reaper_control_surface.CppToRustControlSurface.invoke o ⟨h⟩
          (reaper_control_surface.CSM.Extended call p1 p2 p3) =
        (⟨h⟩, [Effect.call ⟨"cpp_to_rust_IReaperControlSurface_Extended", h,
            [.vint call, .vptr p1, .vptr p2, .vptr p3]⟩],
          o ⟨"cpp_to_rust_IReaperControlSurface_Extended", h,
            [.vint call, .vptr p1, .vptr p2, .vptr p3]⟩)) ∧
    (∀ (self : reaper_pcm_source.PCM_source) (call : Int) (p1 p2 p3 : Nat),
      reaper_pcm_source.rust_to_cpp_PCM_source_Extended self call p1 p2 p3 =
        self.Extended call p1 p2 p3) ∧
    (∀ (self : reaper_resample.REAPER_Resample_Interface) (call : Int) (p1 p2 p3 : Nat),
      reaper_resample.REAPER_Resample_Interface_Extended self call p1 p2 p3 =
        self.Extended call p1 p2 p3) ∧
    (∀ (recognized : List Int) (self : reaper_pcm_source.PCM_source) (call : Int)
        (p1 p2 p3 : Nat),
      (∀ c q1 q2 q3, c ∉ recognized → self.Extended c q1 q2 q3 = 0) →
      call ∉ recognized →
      reaper_pcm_source.rust_to_cpp_PCM_source_Extended self call p1 p2 p3 = 0) := by
  refine ⟨fun o h call p1 p2 p3 => rfl, fun self call p1 p2 p3 => rfl,
    fun self call p1 p2 p3 => rfl, ?_⟩
  intro recognized self call p1 p2 p3 hinert hcall
  exact hinert call p1 p2 p3 hcall

/-- C8 witnessed: a callee answering 0 on every code outside its (empty)
recognized set makes the inbound forwarder answer 0 at code 42. -/
theorem C8_extended_witness :
    ((42 : Int) ∉ ([] : List Int)) ∧
    reaper_pcm_source.rust_to_cpp_PCM_source_Extended ⟨fun _ _ _ _ => 0⟩ 42 1 2 3 = 0 :=
  ⟨by decide, C8_extended_transparent_catch_all.2.2.2 [] ⟨fun _ _ _ _ => 0⟩ 42 1 2 3
    (fun _ _ _ _ _ => rfl) (by decide)⟩

/-- C9: the shim methods on real-time-designated paths perform zero heap
operations, zero lock acquisitions and zero blocking I/O — every PCM-source
and PCM-sink adapter method (hence sample, MIDI and peak transfer), any
number of sequential `GetSamples` invocations (10,000 included), and the
`midi_Output_Send` accessor, which adds no effect beyond the dispatched
call. -/
theorem C9_realtime_paths_allocation_and_lock_free :
    (∀ (o : Oracle) (h : Nat) (m : reaper_pcm_source.PSM),
      (reaper_pcm_source.CppToRustPcmSource.invoke o ⟨h⟩ m).2.1.countP isRtViolation = 0) ∧
    (∀ (o : Oracle) (h : Nat) (m : reaper_pcm_sink.SKM),
      (reaper_pcm_sink.CppToRustPcmSink.invoke o ⟨h⟩ m).2.1.countP isRtViolation = 0) ∧
    (∀ (o : Oracle) (h block n : Nat),
      (reaper_pcm_source.rtGetSamplesTrace o h block n).countP isRtViolation = 0) ∧
    (∀ (self : reaper_midi.midi_Output) (status d1 d2 : Nat) (fo : Int),
      reaper_midi.midi_Output_Send self status d1 d2 fo = self.Send status d1 d2 fo) ∧
    (∀ (self : reaper_midi.midi_Output) (status d1 d2 : Nat) (fo : Int),
      (self.Send status d1 d2 fo).countP isRtViolation = 0 →
      (reaper_midi.midi_Output_Send self status d1 d2 fo).countP isRtViolation = 0) := by
  refine ⟨?_, ?_, ?_, fun self status d1 d2 fo => rfl,
    fun self status d1 d2 fo hclean => hclean⟩
  · intro o h m
    rw [reaper_pcm_source.CppToRustPcmSource.invoke_spec_pcm_source]
    rfl
  · intro o h m
    rw [reaper_pcm_sink.CppToRustPcmSink.invoke_spec_pcm_sink]
    rfl
  · intro o h block n
    exact reaper_pcm_source.rtGetSamplesTrace_clean o h block n

/-- C9 witnessed: a host `Send` implementation with a clean effect trace
keeps the accessor's trace clean. -/
theorem C9_realtime_witness :
    ((reaper_midi.midi_Output.mk (fun _ _ _ _ => [])).Send 1 2 3 4).countP isRtViolation
        = 0 ∧
    (reaper_midi.midi_Output_Send ⟨fun _ _ _ _ => []⟩ 1 2 3 4).countP isRtViolation = 0 :=
  ⟨rfl, C9_realtime_paths_allocation_and_lock_free.2.2.2.2 ⟨fun _ _ _ _ => []⟩ 1 2 3 4 rfl⟩

/-- C10: in the single-static-instance snapshot, every call to
`create_control_surface` (and to `get_surface`) returns the address of the
first call's instance, and the `callback_target` of every call after the
first is ignored — the static keeps the handle supplied to the first
call. -/
theorem C10_static_instance_first_call_wins :
    (∀ (addr t : Nat) (ts : List Nat),
      (reaper_rs_control_surface.runCreates ⟨addr, none⟩ (t :: ts)).2 =
        List.replicate (ts.length + 1) addr ∧
      (reaper_rs_control_surface.runCreates ⟨addr, none⟩ (t :: ts)).1.inst = some t) ∧
    (∀ (addr : Nat) (b : Bool) (n : Nat),
      (reaper_rs_surface.runGets ⟨addr, b⟩ n).2 = List.replicate n addr) := by
  constructor
  · intro addr t ts
    have h := reaper_rs_control_surface.runCreates_initialized ⟨addr, some t⟩ t rfl ts
    constructor
    · simp only [reaper_rs_control_surface.runCreates,
        reaper_rs_control_surface.create_control_surface, h, List.replicate_succ]
    · simp only [reaper_rs_control_surface.runCreates,
        reaper_rs_control_surface.create_control_surface, h]
  · intro addr b n
    exact reaper_rs_surface.runGets_spec ⟨addr, b⟩ n
